import Mathlib

/-!
Verification of the adaptive ZFS memory-limit controller
(bc-zfsonlinux-memorymanagement2.py).

The definitions below are a shallow embedding of the Python source.
Machine floats of the source are modelled as exact rationals; Python
round(x, n) is modelled as rounding of the exact rational with ties to
even, and Python int(x) as truncation toward zero.
-/

namespace ZfsMem

/-- Python int() conversion applied to a rational: truncation toward zero. -/
def pyInt (q : ℚ) : ℤ :=
  if 0 ≤ q then ⌊q⌋ else -⌊-q⌋

/-- Rounding of a rational to the nearest integer with ties to even,
modelling Python round on the exact value. -/
def roundHalfEven (q : ℚ) : ℤ :=
  if q - ⌊q⌋ < 1/2 then ⌊q⌋
  else if 1/2 < q - ⌊q⌋ then ⌊q⌋ + 1
  else if ⌊q⌋ % 2 = 0 then ⌊q⌋ else ⌊q⌋ + 1

/-- Python round(x, 2): round to two decimal places. -/
def round2 (q : ℚ) : ℚ := (roundHalfEven (100 * q) : ℚ) / 100

/-- Configuration after auto_limits resolved the four bound values
(fields mirror the cfg attributes read by run and limit_init). -/
structure Cfg where
  min_percent : ℚ
  max_percent : ℚ
  min_good_percent : ℚ
  max_good_percent : ℚ
  max_panic_percent : ℚ
  min_gb : ℚ
  max_gb : ℚ
  min_good_gb : ℚ
  max_good_gb : ℚ
deriving DecidableEq

/-- Values of the primarycache zfs property set by the loop
(the Python code uses the strings all, metadata, none). -/
inductive PrimaryCache
  | all
  | metadata
  | nocache
deriving DecidableEq

/-- Mutable loop state of run(): the current limit in GB and the last
primarycache value set (None before any assignment). -/
structure LoopState where
  limit_gb : ℚ
  primarycache : Option PrimaryCache
deriving DecidableEq

/-- One iteration of the decision part of run() (lines 294-352), given the
already-rounded utilization percentage. Mirrors the if/elif chain of the
source, including the two-decimal rounding in the steady-state branch. -/
def stepP (cfg : Cfg) (s : LoopState) (percent : ℚ) : LoopState :=
  if percent > cfg.max_panic_percent then
    { s with primarycache :=
        if s.primarycache = some PrimaryCache.metadata then some PrimaryCache.nocache
        else some PrimaryCache.metadata }
  else if percent > cfg.max_percent then
    if s.limit_gb > cfg.min_gb then
      { s with limit_gb :=
          if s.limit_gb - 1 < cfg.min_gb then cfg.min_gb else s.limit_gb - 1 }
    else s
  else if percent < cfg.min_percent then
    let s1 := if s.primarycache ≠ some PrimaryCache.all then
        { s with primarycache := some PrimaryCache.all } else s
    if s1.limit_gb < cfg.max_gb then
      { s1 with limit_gb :=
          if s1.limit_gb + 1 > cfg.max_gb then cfg.max_gb else s1.limit_gb + 1 }
    else s1
  else if percent > cfg.max_good_percent then
    { s with limit_gb := cfg.min_good_gb }
  else if percent < cfg.min_good_percent then
    { s with limit_gb := cfg.max_good_gb }
  else
    { s with limit_gb :=
        round2 (cfg.min_good_gb +
          (1 - (percent - cfg.min_good_percent) /
              (cfg.max_good_percent - cfg.min_good_percent)) *
          (cfg.max_good_gb - cfg.min_good_gb)) }

/-- One iteration of run() from a fresh measurement: the percentage is
computed as round(100 * used / total, 2) before classification (line 292). -/
def step (cfg : Cfg) (s : LoopState) (total used : ℤ) : LoopState :=
  stepP cfg s (round2 (100 * (used : ℚ) / (total : ℚ)))

/-- The six adjustment rules of the main loop. -/
inductive Rule
  | panic
  | aboveMax
  | belowMin
  | aboveGood
  | belowGood
  | steady
deriving DecidableEq

/-- The rule the if/elif chain of run() selects for a given rounded
percentage (the guard structure of lines 294-343). -/
def selectRule (cfg : Cfg) (p : ℚ) : Rule :=
  if p > cfg.max_panic_percent then Rule.panic
  else if p > cfg.max_percent then Rule.aboveMax
  else if p < cfg.min_percent then Rule.belowMin
  else if p > cfg.max_good_percent then Rule.aboveGood
  else if p < cfg.min_good_percent then Rule.belowGood
  else Rule.steady

/-- Raw guard of each rule as the spec states it in section 4.3. -/
def ruleGuard (cfg : Cfg) (p : ℚ) : Rule → Prop
  | Rule.panic => p > cfg.max_panic_percent
  | Rule.aboveMax => p > cfg.max_percent
  | Rule.belowMin => p < cfg.min_percent
  | Rule.aboveGood => p > cfg.max_good_percent
  | Rule.belowGood => p < cfg.min_good_percent
  | Rule.steady => cfg.min_good_percent ≤ p ∧ p ≤ cfg.max_good_percent

/-- Documented priority order of the six rules (panic first). -/
def rulePriority : Rule → ℕ
  | Rule.panic => 0
  | Rule.aboveMax => 1
  | Rule.belowMin => 2
  | Rule.aboveGood => 3
  | Rule.belowGood => 4
  | Rule.steady => 5

/-- Modelled from the spec: a rule applies under first-match-wins priority
when its guard holds and no higher-priority guard holds. -/
def firstMatch (cfg : Cfg) (p : ℚ) (r : Rule) : Prop :=
  ruleGuard cfg p r ∧ ∀ r2 : Rule, rulePriority r2 < rulePriority r → ¬ ruleGuard cfg p r2

/-- The limit is inside the configured hard bounds. -/
def inRange (cfg : Cfg) (l : ℚ) : Prop :=
  cfg.min_gb ≤ l ∧ l ≤ cfg.max_gb

/-- limit_init (lines 252-272): convert the persisted byte value to GB with
two-decimal rounding and clamp it into the configured bounds. -/
def limit_init (cfg : Cfg) (old_limit_b : ℤ) : ℚ :=
  let limit_gb := round2 ((old_limit_b : ℚ) / 1024 / 1024 / 1024)
  if limit_gb < cfg.min_gb then cfg.min_gb
  else if limit_gb > cfg.max_gb then cfg.max_gb
  else limit_gb

/-- Error raised when one of the two tunable file writes of adjust fails. -/
inductive TunableWriteError
  | metaFailed
  | maxFailed
deriving DecidableEq

/-- Log of write attempts against the two tunable files (zfs_arc_meta_limit
and zfs_arc_max); each attempted write is recorded in order. -/
structure SinkLog where
  metaAttempts : List ℤ
  maxAttempts : List ℤ
deriving DecidableEq

/-- adjust (lines 239-249): derive the byte values for the meta sub-limit
(limit minus 2 GB) and the limit, then write the meta sub-limit and the
limit in that order. A write failure (modelled by the fm / fx predicates)
propagates as an exception, so a later write is not reached. -/
def adjust (fm fx : ℤ → Bool) (limit_gb : ℚ) (log : SinkLog) :
    Except TunableWriteError Unit × SinkLog :=
  let max_b := pyInt (limit_gb * (1024 * 1024 * 1024 : ℚ))
  let meta_limit := pyInt ((limit_gb - 2) * (1024 * 1024 * 1024 : ℚ))
  let log1 : SinkLog := { log with metaAttempts := log.metaAttempts ++ [meta_limit] }
  if fm meta_limit then (Except.error TunableWriteError.metaFailed, log1)
  else
    let log2 : SinkLog := { log1 with maxAttempts := log1.maxAttempts ++ [max_b] }
    if fx max_b then (Except.error TunableWriteError.maxFailed, log2)
    else (Except.ok (), log2)

/-- Command-line configuration before auto_limits runs: the four bound
overrides are optional floats defaulting to None. -/
structure ArgCfg where
  min_percent : ℚ
  max_percent : ℚ
  min_good_percent : ℚ
  max_good_percent : ℚ
  max_panic_percent : ℚ
  min_gb : Option ℚ
  max_gb : Option ℚ
  min_good_gb : Option ℚ
  max_good_gb : Option ℚ
deriving DecidableEq

/-- Python truthiness test used by auto_limits: an absent override (None)
and the float 0.0 are both falsy, so both trigger the recomputation. -/
def resolveBound (override : Option ℚ) (computed : ℚ) : ℚ :=
  match override with
  | Option.none => computed
  | some q => if q = 0 then computed else q

/-- auto_limits (lines 215-236): fill in each bound that is unset (falsy)
from total memory and the matching percentage; min_gb gets an extra
division by 4. -/
def auto_limits (total : ℤ) (c : ArgCfg) : Cfg :=
  { min_percent := c.min_percent
    max_percent := c.max_percent
    min_good_percent := c.min_good_percent
    max_good_percent := c.max_good_percent
    max_panic_percent := c.max_panic_percent
    min_gb := resolveBound c.min_gb
      ((pyInt ((total : ℚ) / 1024 * (c.min_percent / 100) / 4) : ℤ) : ℚ)
    max_gb := resolveBound c.max_gb
      ((pyInt ((total : ℚ) / 1024 * (c.max_percent / 100)) : ℤ) : ℚ)
    min_good_gb := resolveBound c.min_good_gb
      ((pyInt ((total : ℚ) / 1024 * (c.min_good_percent / 100)) : ℤ) : ℚ)
    max_good_gb := resolveBound c.max_good_gb
      ((pyInt ((total : ℚ) / 1024 * (c.max_good_percent / 100)) : ℤ) : ℚ) }

/-- Whitespace tokenizer, modelling the Python str.split() with no
arguments (empty tokens are dropped). -/
def pyTokensAux (s : List Char) (acc : List Char) : List (List Char) :=
  match s with
  | [] => if acc = [] then [] else [acc.reverse]
  | c :: rest =>
    if c.isWhitespace then
      if acc = [] then pyTokensAux rest [] else acc.reverse :: pyTokensAux rest []
    else pyTokensAux rest (c :: acc)

/-- Tokens of one output line of the free command. -/
def pyTokens (s : List Char) : List (List Char) := pyTokensAux s []

/-- Python int(token) on an unsigned decimal numeral; any non-digit makes
the conversion fail (ValueError). -/
def pyToInt (tok : List Char) : Option ℤ :=
  match tok with
  | [] => Option.none
  | _ =>
    tok.foldl
      (fun acc c =>
        match acc with
        | some n => if c.isDigit then some (n * 10 + ((c.toNat - 48 : ℕ) : ℤ)) else Option.none
        | Option.none => Option.none)
      (some (0 : ℤ))

/-- Substring containment, modelling the Python in operator on strings. -/
def isSubstring (pat : List Char) : List Char → Bool
  | [] => decide (pat = [])
  | c :: rest => pat.isPrefixOf (c :: rest) || isSubstring pat rest

/-- Module-level global free_version (line 131). It is initialized to None
and is never reassigned during the program: detect_free_version binds only
a function-local name of the same spelling and is never called from the
main flow, so every schema branch reads None. -/
def free_version : Option (List Char) := Option.none

/-- Value computed inside detect_free_version (lines 132-138): probe the
header line for the marker column available and pick the version string.
The assignment targets a function-local, so this value never reaches the
global free_version. -/
def detect_free_version (ram : List (List Char)) : Option (List Char) :=
  match ram with
  | [] => Option.none
  | line0 :: _ =>
    some (if isSubstring ("available".toList) line0 then "3.3.10".toList
          else "3.3.9".toList)

/-- get_ram_total (lines 141-152) applied to the captured output lines of
free -m, parameterized by the value of the global free_version. -/
def get_ram_total (fv : Option (List Char)) (ram : List (List Char)) : Option ℤ :=
  if fv = some ("3.3.9".toList) then
    match ram[1]? with
    | some line =>
      match (pyTokens line)[1]? with
      | some tok => pyToInt tok
      | Option.none => Option.none
    | Option.none => Option.none
  else
    match ram[1]? with
    | some line =>
      match (pyTokens line)[1]? with
      | some tok => pyToInt tok
      | Option.none => Option.none
    | Option.none => Option.none

/-- get_ram_used (lines 155-172) applied to the captured output lines of
free -m, parameterized by the value of the global free_version. In the
3.3.9 branch the used field is the third token of the third line; in the
other branch every numeric field of the Mem line is parsed and used is
total minus available (first minus sixth of those fields). -/
def get_ram_used (fv : Option (List Char)) (ram : List (List Char)) : Option ℤ :=
  if fv = some ("3.3.9".toList) then
    match ram[2]? with
    | some line =>
      match (pyTokens line)[2]? with
      | some tok => pyToInt tok
      | Option.none => Option.none
    | Option.none => Option.none
  else
    match ram[1]? with
    | some line =>
      match ((pyTokens line).drop 1).mapM pyToInt with
      | some split =>
        match split[0]?, split[5]? with
        | some a, some b => some (a - b)
        | _, _ => Option.none
      | Option.none => Option.none
    | Option.none => Option.none

/-- Observable outcome of the process entry point: exit code if the
process exits before the loop, number of loop iterations executed, and
number of tunable file writes performed. -/
structure MainOutcome where
  exitCode : Option ℤ
  loopIterations : ℕ
  tunableWrites : ℕ
deriving DecidableEq

/-- Number of tunable file writes one loop iteration performs: adjust
writes two files; the panic branch and the saturated branches of the
above-max and below-min rules write none. -/
def stepWrites (cfg : Cfg) (s : LoopState) (total used : ℤ) : ℕ :=
  let p := round2 (100 * (used : ℚ) / (total : ℚ))
  if p > cfg.max_panic_percent then 0
  else if p > cfg.max_percent then (if s.limit_gb > cfg.min_gb then 2 else 0)
  else if p < cfg.min_percent then (if s.limit_gb < cfg.max_gb then 2 else 0)
  else 2

/-- Loop iterations and tunable writes of run() over a finite measurement
trace: limit_init performs one adjust (two writes) before the loop. -/
def runModel (cfg : Cfg) (old_limit_b : ℤ) (ms : List (ℤ × ℤ)) : ℕ × ℕ :=
  let start : ℕ × LoopState := (0, ⟨limit_init cfg old_limit_b, Option.none⟩)
  let final := ms.foldl
    (fun acc m => (acc.1 + stepWrites cfg acc.2 m.1 m.2, step cfg acc.2 m.1 m.2))
    start
  (ms.length, 2 + final.1)

/-- Entry-point flow (lines 408-439): exit 1 if a tunable file is missing;
then try the exclusive non-blocking lock, and on failure log and exit 1
without ever calling run(); otherwise run the loop. -/
def main_flow (filesExist lockAvailable : Bool) (cfg : Cfg) (old_limit_b : ℤ)
    (ms : List (ℤ × ℤ)) : MainOutcome :=
  if filesExist = false then ⟨some 1, 0, 0⟩
  else if lockAvailable = false then ⟨some 1, 0, 0⟩
  else ⟨Option.none, (runModel cfg old_limit_b ms).1, (runModel cfg old_limit_b ms).2⟩

/-- Default configuration of the argument parser with automatically derived
bounds replaced by small concrete values for witnesses. -/
def cfgDef : Cfg := ⟨80, 94, 89, 93, 97, 1, 30, 10, 20⟩

/-- Configuration of the spec scenario for the steady-state rule. -/
def cfgScen : Cfg := ⟨80, 94, 89, 93, 97, 1, 30, 10, 20⟩

/-- Configuration exhibiting the range-invariant violation: the good-band
bounds are orderable but max_good_gb has three decimals. -/
def cfgCE : Cfg := ⟨80, 94, 89, 93, 97, 1, 19996/1000, 10, 19996/1000⟩

/-- Configuration exhibiting the steady-state rounding discrepancy. -/
def cfgRnd : Cfg := ⟨80, 94, 89, 93, 97, 1, 30, 10, 17⟩

/-- Captured output of free -m in the pre-3.3.10 schema (no available
column in the header; third line carries the buffers/cache adjusted
values). -/
def ram339 : List (List Char) :=
  ["             total       used       free     shared    buffers     cached".toList,
   "Mem:         64000      60000       4000          0       1000       9000".toList,
   "-/+ buffers/cache:      50000      14000".toList,
   "Swap:         8000          0       8000".toList]

/-! Helper lemmas about two-decimal rounding. -/

theorem floor_le_roundHalfEven (q : ℚ) : ⌊q⌋ ≤ roundHalfEven q := by
  unfold roundHalfEven
  split_ifs <;> omega

theorem roundHalfEven_le_ceil (q : ℚ) : roundHalfEven q ≤ ⌈q⌉ := by
  have hfc : ⌊q⌋ ≤ ⌈q⌉ := Int.floor_le_ceil q
  have hstep : (⌊q⌋ : ℚ) < q → ⌊q⌋ + 1 ≤ ⌈q⌉ := by
    intro hlt
    have h1 : (⌊q⌋ : ℚ) < (⌈q⌉ : ℚ) := lt_of_lt_of_le hlt (Int.le_ceil q)
    have h2 : ⌊q⌋ < ⌈q⌉ := by exact_mod_cast h1
    omega
  unfold roundHalfEven
  split_ifs with h1 h2 h3
  · exact hfc
  · have : (⌊q⌋ : ℚ) < q := by linarith [Int.floor_le q]
    exact hstep this
  · exact hfc
  · have hq : q - ⌊q⌋ = 1/2 := le_antisymm (not_lt.mp h2) (not_lt.mp h1)
    have : (⌊q⌋ : ℚ) < q := by linarith
    exact hstep this

theorem le_round2 (m : ℤ) (q : ℚ) (h : (m : ℚ) / 100 ≤ q) : (m : ℚ) / 100 ≤ round2 q := by
  have h100 : (0 : ℚ) < 100 := by norm_num
  have h1 : (m : ℚ) ≤ 100 * q := by
    have := (div_le_iff h100).mp h
    linarith
  have h2 : m ≤ ⌊100 * q⌋ := Int.le_floor.mpr h1
  have h3 : m ≤ roundHalfEven (100 * q) := le_trans h2 (floor_le_roundHalfEven _)
  unfold round2
  have h4 : (m : ℚ) ≤ (roundHalfEven (100 * q) : ℚ) := by exact_mod_cast h3
  exact (div_le_div_right h100).mpr h4

theorem round2_le (m : ℤ) (q : ℚ) (h : q ≤ (m : ℚ) / 100) : round2 q ≤ (m : ℚ) / 100 := by
  have h100 : (0 : ℚ) < 100 := by norm_num
  have h1 : 100 * q ≤ (m : ℚ) := by
    have := (le_div_iff h100).mp h
    linarith
  have h2 : ⌈100 * q⌉ ≤ m := Int.ceil_le.mpr h1
  have h3 : roundHalfEven (100 * q) ≤ m := le_trans (roundHalfEven_le_ceil _) h2
  unfold round2
  have h4 : (roundHalfEven (100 * q) : ℚ) ≤ (m : ℚ) := by exact_mod_cast h3
  exact (div_le_div_right h100).mpr h4

theorem roundHalfEven_eq_of_lt_half (q : ℚ) (n : ℤ)
    (h1 : (n : ℚ) ≤ q) (h2 : q < (n : ℚ) + 1/2) : roundHalfEven q = n := by
  have hf : ⌊q⌋ = n := Int.floor_eq_iff.mpr ⟨h1, by linarith⟩
  unfold roundHalfEven
  rw [hf]
  rw [if_pos (by linarith)]

theorem roundHalfEven_eq_of_gt_half (q : ℚ) (n : ℤ)
    (h1 : (n : ℚ) + 1/2 < q) (h2 : q < (n : ℚ) + 1) : roundHalfEven q = n + 1 := by
  have hf : ⌊q⌋ = n := Int.floor_eq_iff.mpr ⟨by linarith, by linarith⟩
  unfold roundHalfEven
  rw [hf]
  rw [if_neg (by linarith), if_pos (by linarith)]

/-- Evaluation rule for round2 when the scaled value sits strictly below
the midpoint of its hundredth. -/
theorem round2_eq_down (q : ℚ) (n : ℤ)
    (h1 : (n : ℚ) ≤ 100 * q) (h2 : 100 * q < (n : ℚ) + 1/2) :
    round2 q = (n : ℚ) / 100 := by
  unfold round2
  rw [roundHalfEven_eq_of_lt_half (100 * q) n h1 h2]

/-- Evaluation rule for round2 when the scaled value sits strictly above
the midpoint of its hundredth. -/
theorem round2_eq_up (q : ℚ) (n : ℤ)
    (h1 : (n : ℚ) + 1/2 < 100 * q) (h2 : 100 * q < (n : ℚ) + 1) :
    round2 q = ((n : ℚ) + 1) / 100 := by
  unfold round2
  rw [roundHalfEven_eq_of_gt_half (100 * q) n h1 h2]
  push_cast
  ring

/-- Equation for the steady-state branch of the loop body. -/
theorem stepP_steady_eq (cfg : Cfg) (s : LoopState) (p : ℚ)
    (h1 : ¬ p > cfg.max_panic_percent) (h2 : ¬ p > cfg.max_percent)
    (h3 : ¬ p < cfg.min_percent) (h4 : ¬ p > cfg.max_good_percent)
    (h5 : ¬ p < cfg.min_good_percent) :
    (stepP cfg s p).limit_gb =
      round2 (cfg.min_good_gb +
        (1 - (p - cfg.min_good_percent) / (cfg.max_good_percent - cfg.min_good_percent)) *
        (cfg.max_good_gb - cfg.min_good_gb)) := by
  unfold stepP
  rw [if_neg h1, if_neg h2, if_neg h3, if_neg h4, if_neg h5]

/-! Helper lemmas about rule selection. -/

theorem firstMatch_selectRule (cfg : Cfg) (p : ℚ) :
    firstMatch cfg p (selectRule cfg p) := by
  unfold selectRule firstMatch
  split_ifs with h1 h2 h3 h4 h5
  · refine ⟨h1, ?_⟩
    intro r hr
    exact absurd hr (by cases r <;> decide)
  · refine ⟨h2, ?_⟩
    intro r hr
    cases r
    · exact h1
    · exact absurd hr (by decide)
    · exact absurd hr (by decide)
    · exact absurd hr (by decide)
    · exact absurd hr (by decide)
    · exact absurd hr (by decide)
  · refine ⟨h3, ?_⟩
    intro r hr
    cases r
    · exact h1
    · exact h2
    · exact absurd hr (by decide)
    · exact absurd hr (by decide)
    · exact absurd hr (by decide)
    · exact absurd hr (by decide)
  · refine ⟨h4, ?_⟩
    intro r hr
    cases r
    · exact h1
    · exact h2
    · exact h3
    · exact absurd hr (by decide)
    · exact absurd hr (by decide)
    · exact absurd hr (by decide)
  · refine ⟨h5, ?_⟩
    intro r hr
    cases r
    · exact h1
    · exact h2
    · exact h3
    · exact h4
    · exact absurd hr (by decide)
    · exact absurd hr (by decide)
  · refine ⟨⟨not_lt.mp h5, not_lt.mp h4⟩, ?_⟩
    intro r hr
    cases r
    · exact h1
    · exact h2
    · exact h3
    · exact h4
    · exact h5
    · exact absurd hr (by decide)

theorem firstMatch_unique (cfg : Cfg) (p : ℚ) (r : Rule)
    (h : firstMatch cfg p r) : r = selectRule cfg p := by
  have hsel := firstMatch_selectRule cfg p
  rcases lt_trichotomy (rulePriority r) (rulePriority (selectRule cfg p)) with hlt | heq | hgt
  · exact absurd h.1 (hsel.2 r hlt)
  · have hinj : ∀ a b : Rule, rulePriority a = rulePriority b → a = b := by
      intro a b hab
      cases a <;> cases b <;> simp only [rulePriority] at hab <;> first | rfl | omega
    exact hinj _ _ heq
  · exact absurd hsel.1 (h.2 _ hgt)

/-- Claim C1: for every measurement (total, used) with used ≤ total, exactly
one of the six adjustment rules applies in a given iteration, namely the
one the guard chain of run selects, and it is exactly the rule chosen by
the documented priority order with first match winning. -/
theorem C1_rule_selection (cfg : Cfg) (total used : ℤ)
    (h0 : 0 < total) (h1 : used ≤ total) :
    firstMatch cfg (round2 (100 * (used : ℚ) / (total : ℚ)))
      (selectRule cfg (round2 (100 * (used : ℚ) / (total : ℚ)))) ∧
    ∀ r : Rule,
      firstMatch cfg (round2 (100 * (used : ℚ) / (total : ℚ))) r →
      r = selectRule cfg (round2 (100 * (used : ℚ) / (total : ℚ))) :=
  ⟨firstMatch_selectRule _ _, fun r h => firstMatch_unique _ _ r h⟩

/-- Witness for C1 at the measurement total = 100, used = 50. -/
theorem C1_rule_selection_witness :
    firstMatch cfgDef (round2 (100 * ((50 : ℤ) : ℚ) / ((100 : ℤ) : ℚ)))
      (selectRule cfgDef (round2 (100 * ((50 : ℤ) : ℚ) / ((100 : ℤ) : ℚ)))) :=
  (C1_rule_selection cfgDef 100 50 (by norm_num) (by norm_num)).1

/-- Claim C2 is settled by C2_rounding_counterexample (the claimed exact
equality fails because the source rounds the interpolated limit to two
decimals) together with the amended theorem C2_steady_interpolation. -/
theorem C2_rounding_counterexample :
    (step cfgRnd ⟨12, Option.none⟩ 10000 8901).limit_gb ≠
      cfgRnd.min_good_gb +
        (1 - (round2 (100 * ((8901 : ℤ) : ℚ) / ((10000 : ℤ) : ℚ)) - cfgRnd.min_good_percent) /
            (cfgRnd.max_good_percent - cfgRnd.min_good_percent)) *
        (cfgRnd.max_good_gb - cfgRnd.min_good_gb) := by
  have hq : 100 * ((8901 : ℤ) : ℚ) / ((10000 : ℤ) : ℚ) = 8901 / 100 := by norm_num
  have hp : round2 (100 * ((8901 : ℤ) : ℚ) / ((10000 : ℤ) : ℚ)) = 8901 / 100 := by
    rw [hq]
    have := round2_eq_down (8901 / 100) 8901 (by norm_num) (by norm_num)
    rw [this]
    norm_num
  unfold step
  rw [hp]
  rw [stepP_steady_eq cfgRnd ⟨12, Option.none⟩ (8901 / 100)
    (by norm_num [cfgRnd]) (by norm_num [cfgRnd]) (by norm_num [cfgRnd])
    (by norm_num [cfgRnd]) (by norm_num [cfgRnd])]
  have harg : cfgRnd.min_good_gb +
      (1 - ((8901 : ℚ) / 100 - cfgRnd.min_good_percent) /
          (cfgRnd.max_good_percent - cfgRnd.min_good_percent)) *
      (cfgRnd.max_good_gb - cfgRnd.min_good_gb) = 6793 / 400 := by
    norm_num [cfgRnd]
  rw [harg]
  rw [round2_eq_down (6793 / 400) 1698 (by norm_num) (by norm_num)]
  norm_num

/-- Claim C2 (amended): in the steady-state rule the new limit equals the
linear interpolation rounded to two decimals; the documented scenario
(min_good_percent 89, max_good_percent 93, limits 10 and 20, percent 91)
gives exactly 15; and at the band edges the computed limit equals the
two-decimal rounding of min_good_limit and max_good_limit respectively. -/
theorem C2_steady_interpolation (cfg : Cfg) (s : LoopState) (p : ℚ)
    (h1 : ¬ p > cfg.max_panic_percent) (h2 : ¬ p > cfg.max_percent)
    (h3 : ¬ p < cfg.min_percent) (h4 : ¬ p > cfg.max_good_percent)
    (h5 : ¬ p < cfg.min_good_percent) :
    (stepP cfg s p).limit_gb =
      round2 (cfg.min_good_gb +
        (1 - (p - cfg.min_good_percent) / (cfg.max_good_percent - cfg.min_good_percent)) *
        (cfg.max_good_gb - cfg.min_good_gb)) ∧
    (stepP cfgScen ⟨12, Option.none⟩ 91).limit_gb = 15 ∧
    (cfg.min_good_percent < cfg.max_good_percent → p = cfg.max_good_percent →
      (stepP cfg s p).limit_gb = round2 cfg.min_good_gb) ∧
    (p = cfg.min_good_percent → (stepP cfg s p).limit_gb = round2 cfg.max_good_gb) := by
  have key : (stepP cfg s p).limit_gb =
      round2 (cfg.min_good_gb +
        (1 - (p - cfg.min_good_percent) / (cfg.max_good_percent - cfg.min_good_percent)) *
        (cfg.max_good_gb - cfg.min_good_gb)) := by
    unfold stepP
    rw [if_neg h1, if_neg h2, if_neg h3, if_neg h4, if_neg h5]
  have scen : (stepP cfgScen ⟨12, Option.none⟩ 91).limit_gb = 15 := by
    rw [stepP_steady_eq cfgScen ⟨12, Option.none⟩ 91
      (by norm_num [cfgScen]) (by norm_num [cfgScen]) (by norm_num [cfgScen])
      (by norm_num [cfgScen]) (by norm_num [cfgScen])]
    have harg : cfgScen.min_good_gb +
        (1 - ((91 : ℚ) - cfgScen.min_good_percent) /
            (cfgScen.max_good_percent - cfgScen.min_good_percent)) *
        (cfgScen.max_good_gb - cfgScen.min_good_gb) = 15 := by
      norm_num [cfgScen]
    rw [harg]
    rw [round2_eq_down 15 1500 (by norm_num) (by norm_num)]
    norm_num
  refine ⟨key, scen, ?_, ?_⟩
  · intro hd he
    rw [key, he]
    congr 1
    have hne : cfg.max_good_percent - cfg.min_good_percent ≠ 0 :=
      ne_of_gt (by linarith)
    rw [div_self hne]
    ring
  · intro he
    rw [key, he]
    congr 1
    rw [sub_self, zero_div]
    ring

/-- Witness for C2_steady_interpolation at the documented scenario. -/
theorem C2_steady_interpolation_witness :
    (stepP cfgScen (⟨12, Option.none⟩ : LoopState) (91 : ℚ)).limit_gb =
      round2 (cfgScen.min_good_gb +
        (1 - ((91 : ℚ) - cfgScen.min_good_percent) /
            (cfgScen.max_good_percent - cfgScen.min_good_percent)) *
        (cfgScen.max_good_gb - cfgScen.min_good_gb)) :=
  (C2_steady_interpolation cfgScen ⟨12, Option.none⟩ 91
    (by norm_num [cfgScen]) (by norm_num [cfgScen]) (by norm_num [cfgScen])
    (by norm_num [cfgScen]) (by norm_num [cfgScen])).1

/-! Helper lemmas for the range invariant. -/

theorem steady_bounds (cfg : Cfg) (p : ℚ)
    (hg1 : ∃ m : ℤ, cfg.min_good_gb = (m : ℚ) / 100)
    (hg2 : ∃ m : ℤ, cfg.max_good_gb = (m : ℚ) / 100)
    (hb : cfg.min_good_gb ≤ cfg.max_good_gb)
    (hp1 : cfg.min_good_percent ≤ p) (hp2 : p ≤ cfg.max_good_percent) :
    cfg.min_good_gb ≤
      round2 (cfg.min_good_gb +
        (1 - (p - cfg.min_good_percent) / (cfg.max_good_percent - cfg.min_good_percent)) *
        (cfg.max_good_gb - cfg.min_good_gb)) ∧
    round2 (cfg.min_good_gb +
        (1 - (p - cfg.min_good_percent) / (cfg.max_good_percent - cfg.min_good_percent)) *
        (cfg.max_good_gb - cfg.min_good_gb)) ≤ cfg.max_good_gb := by
  set d := cfg.max_good_percent - cfg.min_good_percent with hd
  set r := (p - cfg.min_good_percent) / d with hr
  have hd0 : 0 ≤ d := by rw [hd]; linarith
  have hr0 : 0 ≤ r := by
    rw [hr]
    exact div_nonneg (by linarith) hd0
  have hr1 : r ≤ 1 := by
    rcases eq_or_lt_of_le hd0 with h | h
    · rw [hr, ← h, div_zero]
      norm_num
    · rw [hr]
      exact (div_le_one h).mpr (by rw [hd]; linarith)
  set e := cfg.min_good_gb + (1 - r) * (cfg.max_good_gb - cfg.min_good_gb) with he
  have e1 : cfg.min_good_gb ≤ e := by
    have hm := mul_nonneg (by linarith : (0 : ℚ) ≤ 1 - r)
      (by linarith : (0 : ℚ) ≤ cfg.max_good_gb - cfg.min_good_gb)
    rw [he]
    linarith
  have e2 : e ≤ cfg.max_good_gb := by
    have hm := mul_le_of_le_one_left
      (by linarith : (0 : ℚ) ≤ cfg.max_good_gb - cfg.min_good_gb)
      (by linarith : 1 - r ≤ 1)
    rw [he]
    linarith
  obtain ⟨m1, hm1⟩ := hg1
  obtain ⟨m2, hm2⟩ := hg2
  constructor
  · rw [hm1]
    exact le_round2 m1 e (hm1 ▸ e1)
  · rw [hm2]
    exact round2_le m2 e (hm2 ▸ e2)

theorem limit_init_inRange (cfg : Cfg) (hminmax : cfg.min_gb ≤ cfg.max_gb) (old : ℤ) :
    inRange cfg (limit_init cfg old) := by
  unfold limit_init inRange
  dsimp only
  split_ifs with hA hB
  · exact ⟨le_refl _, hminmax⟩
  · exact ⟨hminmax, le_refl _⟩
  · exact ⟨not_lt.mp hA, not_lt.mp hB⟩

theorem step_preserves (cfg : Cfg)
    (hb1 : cfg.min_gb ≤ cfg.min_good_gb) (hb2 : cfg.min_good_gb ≤ cfg.max_good_gb)
    (hb3 : cfg.max_good_gb ≤ cfg.max_gb)
    (hg1 : ∃ m : ℤ, cfg.min_good_gb = (m : ℚ) / 100)
    (hg2 : ∃ m : ℤ, cfg.max_good_gb = (m : ℚ) / 100)
    (s : LoopState) (t u : ℤ) (h : inRange cfg s.limit_gb) :
    inRange cfg (step cfg s t u).limit_gb := by
  obtain ⟨hL, hU⟩ := h
  have hsteady := steady_bounds cfg (round2 (100 * (u : ℚ) / (t : ℚ))) hg1 hg2 hb2
  simp only [step, stepP, inRange]
  split_ifs with hA hB hC hD hE hF hG hH hI hJ hK
  all_goals try dsimp only
  all_goals try exact ⟨hL, hU⟩
  all_goals try (constructor <;> linarith)
  all_goals
    exact
      (fun hp1 hp2 =>
        ⟨le_trans hb1 (hsteady hp1 hp2).1, le_trans (hsteady hp1 hp2).2 hb3⟩)
      (not_lt.mp (by assumption)) (not_lt.mp (by assumption))

/-- Claim C3 (amended): assuming the bounds ordering
min_limit ≤ min_good_limit ≤ max_good_limit ≤ max_limit and additionally
that the two good-band bounds are exact multiples of 0.01 (as they are
whenever auto_limits derives them, since those are whole numbers),
current_limit lies within [min_limit, max_limit] after initialization and
after every loop-iteration adjustment, for any sequence of measurements. -/
theorem C3_limit_invariant (cfg : Cfg) (old : ℤ) (ms : List (ℤ × ℤ))
    (hb1 : cfg.min_gb ≤ cfg.min_good_gb) (hb2 : cfg.min_good_gb ≤ cfg.max_good_gb)
    (hb3 : cfg.max_good_gb ≤ cfg.max_gb)
    (hg1 : ∃ m : ℤ, cfg.min_good_gb = (m : ℚ) / 100)
    (hg2 : ∃ m : ℤ, cfg.max_good_gb = (m : ℚ) / 100) :
    inRange cfg (limit_init cfg old) ∧
    inRange cfg ((ms.foldl (fun s m => step cfg s m.1 m.2)
      ⟨limit_init cfg old, Option.none⟩).limit_gb) := by
  have hmm : cfg.min_gb ≤ cfg.max_gb := le_trans hb1 (le_trans hb2 hb3)
  have main : ∀ (l : List (ℤ × ℤ)) (s : LoopState), inRange cfg s.limit_gb →
      inRange cfg ((l.foldl (fun s m => step cfg s m.1 m.2) s).limit_gb) := by
    intro l
    induction l with
    | nil => intro s hs; simpa using hs
    | cons hd tl ih =>
      intro s hs
      simp only [List.foldl_cons]
      exact ih _ (step_preserves cfg hb1 hb2 hb3 hg1 hg2 s hd.1 hd.2 hs)
  exact ⟨limit_init_inRange cfg hmm old,
    main ms _ (limit_init_inRange cfg hmm old)⟩

/-- Witness for C3_limit_invariant at a concrete ordered configuration and
a one-measurement trace. -/
theorem C3_limit_invariant_witness :
    inRange cfgDef (limit_init cfgDef 0) ∧
    inRange cfgDef (([((100 : ℤ), (90 : ℤ))].foldl
      (fun s m => step cfgDef s m.1 m.2)
      ⟨limit_init cfgDef 0, Option.none⟩).limit_gb) :=
  C3_limit_invariant cfgDef 0 [((100 : ℤ), (90 : ℤ))]
    (by norm_num [cfgDef]) (by norm_num [cfgDef]) (by norm_num [cfgDef])
    ⟨1000, by norm_num [cfgDef]⟩ ⟨2000, by norm_num [cfgDef]⟩

/-- Counterexample to claim C3 as stated: with ordered bounds whose
max_good_gb is 19.996 (three decimals), the steady-state rounding pushes
the limit to 20, strictly above max_gb = 19.996, after one iteration from
an in-range initialized state. -/
theorem C3_range_counterexample :
    (cfgCE.min_gb ≤ cfgCE.min_good_gb ∧ cfgCE.min_good_gb ≤ cfgCE.max_good_gb ∧
      cfgCE.max_good_gb ≤ cfgCE.max_gb) ∧
    inRange cfgCE (limit_init cfgCE (15 * 1024 * 1024 * 1024)) ∧
    ¬ inRange cfgCE (([((100 : ℤ), (89 : ℤ))].foldl
      (fun s m => step cfgCE s m.1 m.2)
      ⟨limit_init cfgCE (15 * 1024 * 1024 * 1024), Option.none⟩).limit_gb) := by
  have hinit : limit_init cfgCE (15 * 1024 * 1024 * 1024) = 15 := by
    simp only [limit_init]
    have hconv : (((15 * 1024 * 1024 * 1024 : ℤ)) : ℚ) / 1024 / 1024 / 1024 = 15 := by
      norm_num
    rw [hconv]
    rw [round2_eq_down 15 1500 (by norm_num) (by norm_num)]
    norm_num [cfgCE]
  refine ⟨⟨by norm_num [cfgCE], by norm_num [cfgCE], by norm_num [cfgCE]⟩, ?_, ?_⟩
  · rw [hinit]
    exact ⟨by norm_num [cfgCE], by norm_num [cfgCE]⟩
  · simp only [List.foldl_cons, List.foldl_nil]
    unfold step
    have hp : round2 (100 * ((89 : ℤ) : ℚ) / ((100 : ℤ) : ℚ)) = ((8900 : ℤ) : ℚ) / 100 := by
      have hq : 100 * ((89 : ℤ) : ℚ) / ((100 : ℤ) : ℚ) = ((8900 : ℤ) : ℚ) / 100 := by
        norm_num
      rw [hq]
      exact round2_eq_down (((8900 : ℤ) : ℚ) / 100) 8900 (by norm_num) (by norm_num)
    rw [hp]
    rw [stepP_steady_eq cfgCE ⟨limit_init cfgCE (15 * 1024 * 1024 * 1024), Option.none⟩
      (((8900 : ℤ) : ℚ) / 100)
      (by norm_num [cfgCE]) (by norm_num [cfgCE]) (by norm_num [cfgCE])
      (by norm_num [cfgCE]) (by norm_num [cfgCE])]
    have harg : cfgCE.min_good_gb +
        (1 - (((8900 : ℤ) : ℚ) / 100 - cfgCE.min_good_percent) /
            (cfgCE.max_good_percent - cfgCE.min_good_percent)) *
        (cfgCE.max_good_gb - cfgCE.min_good_gb) = 19996 / 1000 := by
      norm_num [cfgCE]
    rw [harg]
    rw [round2_eq_up (19996 / 1000) 1999 (by norm_num) (by norm_num)]
    intro hcontra
    obtain ⟨hc1, hc2⟩ := hcontra
    norm_num [cfgCE] at hc2

theorem stepP_panic_eq (cfg : Cfg) (s : LoopState) (p : ℚ)
    (hp : p > cfg.max_panic_percent) :
    stepP cfg s p = { s with primarycache :=
      (if s.primarycache = some PrimaryCache.metadata then some PrimaryCache.nocache
       else some PrimaryCache.metadata) } := by
  unfold stepP
  rw [if_pos hp]

/-- Claim C4: on two consecutive panic-triggering iterations the cache
mode toggles between metadata-only and none; the second panic never sets
the value the first one set, and both values are in that two-element
set. -/
theorem C4_panic_toggle (cfg : Cfg) (s : LoopState) (p q : ℚ)
    (hp : p > cfg.max_panic_percent) (hq : q > cfg.max_panic_percent) :
    (stepP cfg s p).primarycache =
      some (if s.primarycache = some PrimaryCache.metadata then PrimaryCache.nocache
            else PrimaryCache.metadata) ∧
    (stepP cfg (stepP cfg s p) q).primarycache ≠ (stepP cfg s p).primarycache ∧
    ((stepP cfg (stepP cfg s p) q).primarycache = some PrimaryCache.metadata ∨
      (stepP cfg (stepP cfg s p) q).primarycache = some PrimaryCache.nocache) := by
  rw [stepP_panic_eq cfg s p hp, stepP_panic_eq cfg _ q hq]
  by_cases hm : s.primarycache = some PrimaryCache.metadata <;> simp [hm]

/-- Witness for C4_panic_toggle at two consecutive percentages above the
panic threshold. -/
theorem C4_panic_toggle_witness :
    (stepP cfgDef ⟨15, Option.none⟩ 98).primarycache = some PrimaryCache.metadata ∧
    (stepP cfgDef (stepP cfgDef ⟨15, Option.none⟩ 98) 98).primarycache ≠
      (stepP cfgDef ⟨15, Option.none⟩ 98).primarycache ∧
    ((stepP cfgDef (stepP cfgDef ⟨15, Option.none⟩ 98) 98).primarycache =
        some PrimaryCache.metadata ∨
      (stepP cfgDef (stepP cfgDef ⟨15, Option.none⟩ 98) 98).primarycache =
        some PrimaryCache.nocache) := by
  have h := C4_panic_toggle cfgDef ⟨15, Option.none⟩ 98 98
    (by norm_num [cfgDef]) (by norm_num [cfgDef])
  exact ⟨h.1, h.2.1, h.2.2⟩

/-- Claim C5: limit_init converts the persisted byte value to GB, clamps
it up to min_gb when below, down to max_gb when above, keeps an in-range
value as-is, and applies the resulting limit through adjust (whose log
then carries the meta sub-limit and the limit). -/
theorem C5_limit_init_clamp (cfg : Cfg) (old : ℤ) :
    (round2 ((old : ℚ) / 1024 / 1024 / 1024) < cfg.min_gb →
      limit_init cfg old = cfg.min_gb) ∧
    (¬ round2 ((old : ℚ) / 1024 / 1024 / 1024) < cfg.min_gb →
      round2 ((old : ℚ) / 1024 / 1024 / 1024) > cfg.max_gb →
      limit_init cfg old = cfg.max_gb) ∧
    (cfg.min_gb ≤ round2 ((old : ℚ) / 1024 / 1024 / 1024) →
      round2 ((old : ℚ) / 1024 / 1024 / 1024) ≤ cfg.max_gb →
      limit_init cfg old = round2 ((old : ℚ) / 1024 / 1024 / 1024)) ∧
    (adjust (fun _ => false) (fun _ => false) (limit_init cfg old) ⟨[], []⟩).2 =
      ⟨[pyInt ((limit_init cfg old - 2) * (1024 * 1024 * 1024 : ℚ))],
        [pyInt (limit_init cfg old * (1024 * 1024 * 1024 : ℚ))]⟩ := by
  refine ⟨?_, ?_, ?_, rfl⟩
  · intro h
    simp only [limit_init]
    rw [if_pos h]
  · intro h1 h2
    simp only [limit_init]
    rw [if_neg h1, if_pos h2]
  · intro h1 h2
    simp only [limit_init]
    rw [if_neg (not_lt.mpr h1), if_neg (not_lt.mpr h2)]

/-- Witness for C5_limit_init_clamp: a persisted value of 0 bytes is
clamped up to min_gb. -/
theorem C5_limit_init_clamp_witness : limit_init cfgDef 0 = cfgDef.min_gb := by
  apply (C5_limit_init_clamp cfgDef 0).1
  have harg : ((0 : ℤ) : ℚ) / 1024 / 1024 / 1024 = 0 := by norm_num
  rw [harg]
  rw [round2_eq_down 0 0 (by norm_num) (by norm_num)]
  norm_num [cfgDef]

/-- Claim C6 is settled by C6_write_counterexample (when the meta write
fails the max write is never attempted, so it is false that both writes
are always attempted) together with the amended theorem C6_adjust_writes. -/
theorem C6_write_counterexample :
    (adjust (fun _ => true) (fun _ => false) 10 ⟨[], []⟩).1 =
      Except.error TunableWriteError.metaFailed ∧
    (adjust (fun _ => true) (fun _ => false) 10 ⟨[], []⟩).2.maxAttempts = [] ∧
    (adjust (fun _ => true) (fun _ => false) 10 ⟨[], []⟩).2.metaAttempts ≠ [] := by
  refine ⟨rfl, rfl, ?_⟩
  simp [adjust]

/-- Claim C6 (amended): adjust derives the meta sub-limit as the byte
value of limit − 2 GB and the limit as its own byte value, writing meta
first and then max; the meta write is always attempted, the max write is
attempted exactly when the meta write succeeds, and the operation returns
ok exactly when both writes succeed (otherwise the error surfaces). -/
theorem C6_adjust_writes (fm fx : ℤ → Bool) (l : ℚ) (log : SinkLog) :
    (adjust fm fx l log).2.metaAttempts =
      log.metaAttempts ++ [pyInt ((l - 2) * (1024 * 1024 * 1024 : ℚ))] ∧
    (adjust fm fx l log).2.maxAttempts =
      (if fm (pyInt ((l - 2) * (1024 * 1024 * 1024 : ℚ))) then log.maxAttempts
       else log.maxAttempts ++ [pyInt (l * (1024 * 1024 * 1024 : ℚ))]) ∧
    ((adjust fm fx l log).1 = Except.ok () ↔
      (fm (pyInt ((l - 2) * (1024 * 1024 * 1024 : ℚ))) = false ∧
        fx (pyInt (l * (1024 * 1024 * 1024 : ℚ))) = false)) := by
  unfold adjust
  cases hfm : fm (pyInt ((l - 2) * (1024 * 1024 * 1024 : ℚ))) <;>
    cases hfx : fx (pyInt (l * (1024 * 1024 * 1024 : ℚ))) <;>
    simp [hfm, hfx]

/-- Claim C7 describes intended behavior the code does not implement: the
marker probe itself would classify the pre-3.3.10 output correctly, but
the program never updates the global free_version (detect_free_version
assigns a function-local and is never called), so the used-memory reader
always takes the 3.3.10 offsets and returns 55000 on the 3.3.9-schema
input instead of the schema-correct 50000. -/
theorem C7_schema_detection_unused :
    detect_free_version ram339 = some ("3.3.9".toList) ∧
    get_ram_used (some ("3.3.9".toList)) ram339 = some 50000 ∧
    get_ram_used free_version ram339 = some 55000 ∧
    get_ram_total free_version ram339 = some 64000 ∧
    (55000 : ℤ) ≠ 50000 := by
  refine ⟨?_, ?_, ?_, ?_, by norm_num⟩
  · rfl
  · rfl
  · rfl
  · rfl

/-- Claim C8: a second controller started while the singleton lock is
held exits with status 1 (non-zero), performs zero loop iterations and
zero tunable writes. -/
theorem C8_second_instance (filesExist : Bool) (cfg : Cfg) (old : ℤ)
    (ms : List (ℤ × ℤ)) :
    (main_flow filesExist false cfg old ms).exitCode = some 1 ∧
    (main_flow filesExist false cfg old ms).loopIterations = 0 ∧
    (main_flow filesExist false cfg old ms).tunableWrites = 0 ∧
    (1 : ℤ) ≠ 0 := by
  cases filesExist <;> exact ⟨rfl, rfl, rfl, by norm_num⟩

/-- Claim C9: for each of the four bound overrides, a supplied value of 0
behaves exactly like an absent override (Python truthiness), so the bound
is recomputed from total memory and the matching percentage (with the
extra division by 4 for min_gb) instead of using the callers 0. -/
theorem C9_zero_override (total : ℤ) (c : ArgCfg) :
    (auto_limits total { c with min_gb := some 0 } =
        auto_limits total { c with min_gb := Option.none } ∧
      (auto_limits total { c with min_gb := some 0 }).min_gb =
        ((pyInt ((total : ℚ) / 1024 * (c.min_percent / 100) / 4) : ℤ) : ℚ)) ∧
    (auto_limits total { c with max_gb := some 0 } =
        auto_limits total { c with max_gb := Option.none } ∧
      (auto_limits total { c with max_gb := some 0 }).max_gb =
        ((pyInt ((total : ℚ) / 1024 * (c.max_percent / 100)) : ℤ) : ℚ)) ∧
    (auto_limits total { c with min_good_gb := some 0 } =
        auto_limits total { c with min_good_gb := Option.none } ∧
      (auto_limits total { c with min_good_gb := some 0 }).min_good_gb =
        ((pyInt ((total : ℚ) / 1024 * (c.min_good_percent / 100)) : ℤ) : ℚ)) ∧
    (auto_limits total { c with max_good_gb := some 0 } =
        auto_limits total { c with max_good_gb := Option.none } ∧
      (auto_limits total { c with max_good_gb := some 0 }).max_good_gb =
        ((pyInt ((total : ℚ) / 1024 * (c.max_good_percent / 100)) : ℤ) : ℚ)) :=
  ⟨⟨rfl, rfl⟩, ⟨rfl, rfl⟩, ⟨rfl, rfl⟩, ⟨rfl, rfl⟩⟩

/-- Claim C10: the percentage used for every band comparison is rounded to
two decimals before classification, so the selected rule can differ from
the one the exact ratio would choose: at total 25000 and used 23501 the
exact percentage 94.004 exceeds max_percent 94 (above-max rule), but it
rounds to 94.0 and the loop selects the above-good rule instead. -/
theorem C10_percent_rounding :
    (∀ (cfg : Cfg) (s : LoopState) (t u : ℤ),
      step cfg s t u = stepP cfg s (round2 (100 * (u : ℚ) / (t : ℚ)))) ∧
    round2 (100 * ((23501 : ℤ) : ℚ) / ((25000 : ℤ) : ℚ)) = 94 ∧
    100 * ((23501 : ℤ) : ℚ) / ((25000 : ℤ) : ℚ) > (94 : ℚ) ∧
    selectRule cfgDef (100 * ((23501 : ℤ) : ℚ) / ((25000 : ℤ) : ℚ)) = Rule.aboveMax ∧
    selectRule cfgDef (round2 (100 * ((23501 : ℤ) : ℚ) / ((25000 : ℤ) : ℚ))) =
      Rule.aboveGood ∧
    Rule.aboveGood ≠ Rule.aboveMax := by
  have hq : 100 * ((23501 : ℤ) : ℚ) / ((25000 : ℤ) : ℚ) = 94004 / 1000 := by norm_num
  have hr : round2 (100 * ((23501 : ℤ) : ℚ) / ((25000 : ℤ) : ℚ)) = 94 := by
    rw [hq]
    rw [round2_eq_down (94004 / 1000) 9400 (by norm_num) (by norm_num)]
    norm_num
  refine ⟨fun _ _ _ _ => rfl, hr, by rw [hq]; norm_num, ?_, ?_, by decide⟩
  · rw [hq]
    unfold selectRule
    rw [if_neg (by norm_num [cfgDef]), if_pos (by norm_num [cfgDef])]
  · rw [hr]
    unfold selectRule
    rw [if_neg (by norm_num [cfgDef]), if_neg (by norm_num [cfgDef]),
      if_neg (by norm_num [cfgDef]), if_pos (by norm_num [cfgDef])]

end ZfsMem
